import Mathlib

/-!
Verification of the request-pipeline middleware of this repository
(`http_middleware` in `src/main.py`), together with the expiring cache it
uses for rate limiting.  The middleware is embedded shallowly: one call of
the Python coroutine on one request becomes a pure Lean function from the
request, the cache contents and the current wall-clock second to an
outcome record that carries the response, the new cache contents, and a
trace of the side effects (handler invocation, cache reads/writes,
performance-monitor update).
-/

namespace Haar

/-! ### Decimal rendering of integers

Python renders numbers into the f-strings of `src/main.py`
(`f"{Constants.WINDOW}"`, `str(Constants.MAX_REQUESTS)`, ...) as plain
decimal numerals.  `natToDec` is that rendering; the fuel argument of
`natDecAux` makes the recursion structural (a number never has more digits
than its own value). -/

def natDecAux : Nat → Nat → List Char
  | 0, _ => []
  | _ + 1, 0 => []
  | fuel + 1, n + 1 => natDecAux fuel ((n + 1) / 10) ++ [Nat.digitChar ((n + 1) % 10)]

/-- Decimal numeral of a natural number, exactly as Python `str`/f-string
formatting produces it. -/
def natToDec (n : Nat) : String :=
  if n = 0 then "0" else ⟨natDecAux n n⟩

/-- Value of a digit string, most significant digit first; used only to
prove `natToDec` injective. -/
def decValAux : List Char → Nat → Nat
  | [], acc => acc
  | c :: cs, acc => decValAux cs (acc * 10 + (c.toNat - 48))

/-! ### The expiring cache -/

/-- Modelled from the spec: the class `RedisLikeCache` is imported from
`src.cache`, a module that is not part of the given sources.  Following
§4.1 of the spec, the cache is a mapping from string keys to a value
together with an expiration deadline (`expires_at = now + ttl_seconds`);
a `get` of an entry whose deadline has passed behaves as if the key were
absent, and a `set` overwrites the entry and resets the deadline. -/
abbrev Cache := List (String × Nat × Nat)

def Cache.find (c : Cache) (k : String) : Option (Nat × Nat) :=
  match c.find? (fun e => e.1 == k) with
  | some e => some e.2
  | none => none

/-- Modelled from the spec (§4.1): `get(key)` returns the stored value, or
absent when the key is missing or its expiration deadline has passed. -/
def Cache.get (c : Cache) (now : Nat) (k : String) : Option Nat :=
  match Cache.find c k with
  | some (v, e) => if now < e then some v else none
  | none => none

/-- Modelled from the spec (§4.1): `set(key, value, ttl_seconds)` stores the
value with `expires_at = now + ttl_seconds`, overwriting any existing entry
for that key and resetting its TTL. -/
def Cache.set (c : Cache) (now : Nat) (k : String) (v : Nat) (ttl : Nat) : Cache :=
  (k, v, now + ttl) :: c.filter (fun e => !(e.1 == k))

/-! ### Python `int()` on header values

The body-size guard of `src/main.py` line 129 runs `int(content_length)`
with no exception guard.  `pythonInt` models `int` applied to an HTTP
header value.  Header values are latin-1 decoded, and on latin-1 text
`int` strips the characters accepted by `Py_UNICODE_ISSPACE` (tab through
carriage return, the file/group/record/unit separators, space, next line,
no-break space), then accepts an optional single sign followed by a
nonempty run of decimal digits in which single underscores may appear
between digits; anything else raises `ValueError`, modelled by `none`. -/

def pyWhitespace (c : Char) : Bool :=
  [' ', '\t', '\n', '\r', '\x0b', '\x0c', '\x1c', '\x1d', '\x1e', '\x1f',
   '\x85', '\xa0'].contains c

def pyDigits : List Char → Nat → Bool → Option Nat
  | [], acc, lastWasDigit => if lastWasDigit then some acc else none
  | c :: cs, acc, lastWasDigit =>
    if '0' ≤ c ∧ c ≤ '9' then pyDigits cs (acc * 10 + (c.toNat - 48)) true
    else if c = '_' ∧ lastWasDigit then pyDigits cs acc false
    else none

def pythonInt (s : String) : Option Int :=
  let stripped := ((s.data.dropWhile pyWhitespace).reverse.dropWhile pyWhitespace).reverse
  match stripped with
  | '+' :: rest => (pyDigits rest 0 false).map (fun n => (n : Int))
  | '-' :: rest => (pyDigits rest 0 false).map (fun n => -(n : Int))
  | _ => (pyDigits stripped 0 false).map (fun n => (n : Int))

/-! ### Configuration and requests -/

/-- The three configuration constants of `src.constants.Constants` that
`http_middleware` reads.  Their concrete values are configuration, so every
theorem is parametric in them. -/
structure Constants where
  MAX_BODY_SIZE : Nat
  MAX_REQUESTS : Nat
  WINDOW : Nat
deriving DecidableEq

/-- The parts of a request that `http_middleware` looks at: the URL path,
the `content-length` header (absent, or its string value), the sizes of
the chunks `request.stream()` yields when no `content-length` is given,
and the client identifier computed by `util.get_client_identifier`
(a collaborator outside the given sources; the middleware only
interpolates it into the cache key). -/
structure Request where
  path : String
  contentLength : Option String
  bodyChunks : List Nat
  identifier : String
deriving DecidableEq

/-- The rate-limit cache key `f"rate_limit:{identifier}"` of line 147. -/
def rlKey (req : Request) : String := "rate_limit:" ++ req.identifier

/-! ### Responses and outcomes -/

/-- Body of the 429 rejection of lines 157-163 of `src/main.py`. -/
structure Body429 where
  error : String
  message : String
  retry_after : String
  limit : Nat
  window : Nat
deriving DecidableEq

/-- Headers of the 429 rejection of lines 164-169 of `src/main.py`. -/
structure Headers429 where
  retryAfter : String
  xRateLimitLimit : String
  xRateLimitRemaining : String
  xRateLimitReset : String
deriving DecidableEq

/-- The rate-limit headers attached to an allowed response at
lines 178-181 of `src/main.py`. -/
structure RateHeaders where
  xRateLimitLimit : String
  xRateLimitRemaining : String
  xRateLimitReset : String
deriving DecidableEq

/-- Outcome of one middleware call, as seen by the client.

* `bypassOk`: a documentation path was special-cased at line 119; the
  handler response is returned untouched.
* `ok h`: the request passed both checks; the handler response is returned
  with the rate-limit headers `h` attached.
* `err413 d`: the `HTTPException(413, d)` of the body-size guard, turned
  into a 413 response by `http_exception_handler`.
* `err429 b h`: the `HTTPException(429)` of the rate limiter with body `b`
  and headers `h`, turned into a 429 response by `http_exception_handler`.
* `err500`: an exception that is no `HTTPException` (the unguarded `int()`
  raising `ValueError`) escaped, and `global_exception_handler`
  (lines 218-226) answers 500 Internal Server Error. -/
inductive Resp
  | bypassOk
  | ok (headers : RateHeaders)
  | err413 (detail : String)
  | err429 (body : Body429) (headers : Headers429)
  | err500
deriving DecidableEq

/-- One middleware call together with its effect trace. -/
structure MwOutcome where
  resp : Resp
  /-- whether `call_next` ran, i.e. a downstream handler was invoked -/
  handlerRan : Bool
  /-- the cache contents after the call -/
  cache : Cache
  /-- whether `monitor.increment_request` (line 188) was called -/
  monitorCalled : Bool
  /-- keys passed to `cache.get`, in order -/
  getCalls : List String
  /-- `(key, value, ttl)` triples passed to `cache.set`, in order -/
  setCalls : List (String × Nat × Nat)
deriving DecidableEq

/-! ### The middleware itself -/

/-- The paths special-cased at line 119 of `src/main.py`. -/
def bypassPaths : List String := ["/docs", "/redoc", "/openapi.json"]

/-- Result of the body-size guard, lines 126-143 of `src/main.py`. -/
inductive SizeResult
  | tooLarge
  | valueError
  | sizeOk
deriving DecidableEq

/-- The incremental check of the streaming branch (lines 134-143): chunks
are appended to the body and the guard fires as soon as the accumulated
length exceeds the limit. -/
def streamTooLarge (maxSize : Nat) : List Nat → Nat → Bool
  | [], _ => false
  | c :: cs, acc =>
    if acc + c > maxSize then true else streamTooLarge maxSize cs (acc + c)

/-- Body-size guard of lines 126-143: when a nonempty `content-length`
header is present it is parsed with a bare `int()` and compared against
`Constants.MAX_BODY_SIZE`; when it is absent or empty (falsy in Python)
the body is streamed and checked incrementally. -/
def bodySizeCheck (ctx : Constants) (req : Request) : SizeResult :=
  match req.contentLength with
  | some cl =>
    if cl ≠ "" then
      match pythonInt cl with
      | some i => if i > (ctx.MAX_BODY_SIZE : Int) then .tooLarge else .sizeOk
      | none => .valueError
    else
      if streamTooLarge ctx.MAX_BODY_SIZE req.bodyChunks 0 then .tooLarge else .sizeOk
  | none =>
    if streamTooLarge ctx.MAX_BODY_SIZE req.bodyChunks 0 then .tooLarge else .sizeOk

/-- Line 152 of `src/main.py`: `new_value = (current + 1) if current else 1`;
both `None` and `0` are falsy. -/
def newCount : Option Nat → Nat
  | some v => if v ≠ 0 then v + 1 else 1
  | none => 1

/-- Detail string of the 413 rejection (lines 130-133 and 139-142). -/
def entityTooLargeDetail (ctx : Constants) : String :=
  "Request entity too large. Max allowed: " ++ natToDec ctx.MAX_BODY_SIZE ++ " bytes"

/-- Body of the 429 rejection (lines 157-163).  The `message` field is a
string literal in the source; only `retry_after`, `limit` and `window` are
interpolated from `Constants`. -/
def rateLimitBody (ctx : Constants) : Body429 :=
  { error := "Too many requests"
    message := "Rate limit exceeded. Try again in 60 seconds."
    retry_after := natToDec ctx.WINDOW
    limit := ctx.MAX_REQUESTS
    window := ctx.WINDOW }

/-- Headers of the 429 rejection (lines 164-169). -/
def rateLimitHeaders429 (ctx : Constants) : Headers429 :=
  { retryAfter := natToDec ctx.WINDOW
    xRateLimitLimit := natToDec ctx.MAX_REQUESTS
    xRateLimitRemaining := "0"
    xRateLimitReset := natToDec ctx.WINDOW }

/-- Rate-limit headers attached to an allowed response (lines 178-181),
with `remaining = max(Constants.MAX_REQUESTS - current, 0)`. -/
def allowedHeaders (ctx : Constants) (current : Nat) : RateHeaders :=
  { xRateLimitLimit := natToDec ctx.MAX_REQUESTS
    xRateLimitRemaining := natToDec (max (ctx.MAX_REQUESTS - current) 0)
    xRateLimitReset := natToDec ctx.WINDOW }

/-- Shallow embedding of `http_middleware` (`src/main.py` lines 117-190)
for one request: `cache` is the cache contents when the call starts and
`now` the current wall-clock second (the time `cache.set` stamps
expiration deadlines with).  Timing headers (`X-Response-Time`) and the
collaborator `middleware.add_security_headers` are outside every claim and
are not modelled. -/
def http_middleware (ctx : Constants) (req : Request) (cache : Cache) (now : Nat) :
    MwOutcome :=
  if bypassPaths.contains req.path then
    { resp := .bypassOk, handlerRan := true, cache := cache,
      monitorCalled := false, getCalls := [], setCalls := [] }
  else
    match bodySizeCheck ctx req with
    | .tooLarge =>
      { resp := .err413 (entityTooLargeDetail ctx), handlerRan := false,
        cache := cache, monitorCalled := false, getCalls := [], setCalls := [] }
    | .valueError =>
      { resp := .err500, handlerRan := false, cache := cache,
        monitorCalled := false, getCalls := [], setCalls := [] }
    | .sizeOk =>
      let key := rlKey req
      let newValue := newCount (Cache.get cache now key)
      if newValue > ctx.MAX_REQUESTS then
        { resp := .err429 (rateLimitBody ctx) (rateLimitHeaders429 ctx),
          handlerRan := false, cache := cache, monitorCalled := false,
          getCalls := [key], setCalls := [] }
      else
        { resp := .ok (allowedHeaders ctx newValue), handlerRan := true,
          cache := Cache.set cache now key newValue ctx.WINDOW,
          monitorCalled := true, getCalls := [key],
          setCalls := [(key, newValue, ctx.WINDOW)] }

/-- A sequence of middleware calls for the same request shape, one call per
entry of `ts` (the wall-clock second of that call), each call starting from
the cache the previous one left behind. -/
def runTimes (ctx : Constants) (req : Request) : Cache → List Nat → List MwOutcome
  | _, [] => []
  | c, t :: ts =>
    let o := http_middleware ctx req c t
    o :: runTimes ctx req o.cache ts

/-- The message the 429 body would need in order to name an arbitrary
window length; the source hard-codes the instance at 60. -/
def rateMsg (n : Nat) : String :=
  "Rate limit exceeded. Try again in " ++ natToDec n ++ " seconds."

/-! ### Injectivity of the decimal rendering -/

theorem decValAux_append (l : List Char) (c : Char) :
    ∀ acc, decValAux (l ++ [c]) acc = decValAux l acc * 10 + (c.toNat - 48) := by
  induction l with
  | nil => intro acc; simp [decValAux]
  | cons d l ih => intro acc; simp [decValAux, ih]

theorem digitChar_val : ∀ d, d < 10 → (Nat.digitChar d).toNat - 48 = d := by
  decide

theorem natDecAux_val : ∀ fuel n, n ≤ fuel → decValAux (natDecAux fuel n) 0 = n := by
  intro fuel
  induction fuel with
  | zero =>
    intro n hn
    interval_cases n
    simp [natDecAux, decValAux]
  | succ f ih =>
    intro n hn
    match n with
    | 0 => simp [natDecAux, decValAux]
    | m + 1 =>
      have hdiv : (m + 1) / 10 ≤ f := by omega
      rw [natDecAux, decValAux_append, ih _ hdiv, digitChar_val _ (by omega)]
      omega

theorem natToDec_inj {m w : Nat} (h : natToDec m = natToDec w) : m = w := by
  by_cases hm : m = 0 <;> by_cases hw : w = 0
  · omega
  · exfalso
    rw [natToDec, natToDec, if_pos hm, if_neg hw] at h
    have hd : ['0'] = natDecAux w w := congrArg String.data h
    have := natDecAux_val w w (Nat.le_refl w)
    rw [← hd] at this
    simp [decValAux] at this
    omega
  · exfalso
    rw [natToDec, natToDec, if_neg hm, if_pos hw] at h
    have hd : natDecAux m m = ['0'] := congrArg String.data h
    have := natDecAux_val m m (Nat.le_refl m)
    rw [hd] at this
    simp [decValAux] at this
    omega
  · rw [natToDec, natToDec, if_neg hm, if_neg hw] at h
    have hd : natDecAux m m = natDecAux w w := congrArg String.data h
    have h1 := natDecAux_val m m (Nat.le_refl m)
    have h2 := natDecAux_val w w (Nat.le_refl w)
    rw [hd] at h1
    omega

theorem rateMsg_inj {m w : Nat} (h : rateMsg m = rateMsg w) : m = w := by
  apply natToDec_inj
  have hd := congrArg String.data h
  simp only [rateMsg, String.data_append] at hd
  simp only [List.append_cancel_left_eq, List.append_cancel_right_eq] at hd
  exact congrArg String.mk hd

/-! ### Cache lemmas -/

theorem Cache.find_set_self (c : Cache) (now : Nat) (k : String) (v ttl : Nat) :
    Cache.find (Cache.set c now k v ttl) k = some (v, now + ttl) := by
  simp [Cache.find, Cache.set, List.find?]

theorem Cache.get_set_self (c : Cache) (now : Nat) (k : String) (v ttl t : Nat)
    (ht : t < now + ttl) :
    Cache.get (Cache.set c now k v ttl) t k = some v := by
  simp [Cache.get, Cache.find_set_self, ht]

/-! ### Step equations for the middleware -/

theorem middleware_bypass (ctx : Constants) (req : Request) (c : Cache) (now : Nat)
    (hbp : bypassPaths.contains req.path = true) :
    http_middleware ctx req c now =
      { resp := .bypassOk, handlerRan := true, cache := c,
        monitorCalled := false, getCalls := [], setCalls := [] } := by
  unfold http_middleware
  rw [hbp]
  simp

theorem middleware_allowed (ctx : Constants) (req : Request) (c : Cache) (now : Nat)
    (hbp : bypassPaths.contains req.path = false)
    (hsz : bodySizeCheck ctx req = .sizeOk)
    (hle : newCount (Cache.get c now (rlKey req)) ≤ ctx.MAX_REQUESTS) :
    http_middleware ctx req c now =
      { resp := .ok (allowedHeaders ctx (newCount (Cache.get c now (rlKey req)))),
        handlerRan := true,
        cache := Cache.set c now (rlKey req)
          (newCount (Cache.get c now (rlKey req))) ctx.WINDOW,
        monitorCalled := true, getCalls := [rlKey req],
        setCalls := [(rlKey req, newCount (Cache.get c now (rlKey req)), ctx.WINDOW)] } := by
  unfold http_middleware
  rw [hbp, hsz]
  simp [Nat.not_lt.mpr hle]

theorem middleware_limited (ctx : Constants) (req : Request) (c : Cache) (now : Nat)
    (hbp : bypassPaths.contains req.path = false)
    (hsz : bodySizeCheck ctx req = .sizeOk)
    (hgt : newCount (Cache.get c now (rlKey req)) > ctx.MAX_REQUESTS) :
    http_middleware ctx req c now =
      { resp := .err429 (rateLimitBody ctx) (rateLimitHeaders429 ctx),
        handlerRan := false, cache := c, monitorCalled := false,
        getCalls := [rlKey req], setCalls := [] } := by
  unfold http_middleware
  rw [hbp, hsz]
  simp [hgt]

theorem middleware_tooLarge (ctx : Constants) (req : Request) (c : Cache) (now : Nat)
    (hbp : bypassPaths.contains req.path = false)
    (hsz : bodySizeCheck ctx req = .tooLarge) :
    http_middleware ctx req c now =
      { resp := .err413 (entityTooLargeDetail ctx), handlerRan := false,
        cache := c, monitorCalled := false, getCalls := [], setCalls := [] } := by
  unfold http_middleware
  rw [hbp, hsz]
  simp

theorem middleware_valueError (ctx : Constants) (req : Request) (c : Cache) (now : Nat)
    (hbp : bypassPaths.contains req.path = false)
    (hsz : bodySizeCheck ctx req = .valueError) :
    http_middleware ctx req c now =
      { resp := .err500, handlerRan := false, cache := c,
        monitorCalled := false, getCalls := [], setCalls := [] } := by
  unfold http_middleware
  rw [hbp, hsz]
  simp

/-! ### Counting along a sequence of calls -/

/-- Invariant threaded through a run of calls for one client: either no
request has been counted yet and the rate-limit key is absent at time `t`,
or `j ≥ 1` requests have been counted and the cache entry holds `j` with an
expiration deadline beyond `t`. -/
def CountInv (req : Request) (c : Cache) (t j : Nat) : Prop :=
  (j = 0 ∧ Cache.get c t (rlKey req) = none) ∨
  (1 ≤ j ∧ ∃ e, Cache.find c (rlKey req) = some (j, e) ∧ t < e)

theorem newCount_of_inv {req : Request} {c : Cache} {t j : Nat}
    (h : CountInv req c t j) :
    newCount (Cache.get c t (rlKey req)) = j + 1 := by
  rcases h with ⟨hj, hget⟩ | ⟨hj, e, hfind, hlt⟩
  · rw [hget, hj]
    rfl
  · have hj0 : j ≠ 0 := by omega
    unfold Cache.get
    rw [hfind]
    simp [newCount, hlt, hj0]

/-- Along any run of calls for one client whose consecutive times never move
backwards and are always less than `WINDOW` apart, starting from a state
satisfying the invariant with `j` already counted: as long as the total stays
within `MAX_REQUESTS`, the `i`-th call is allowed and writes back `j + i + 1`
with TTL `WINDOW`. -/
theorem runTimes_counts (ctx : Constants) (req : Request)
    (hbp : bypassPaths.contains req.path = false)
    (hsz : bodySizeCheck ctx req = .sizeOk) :
    ∀ (ts : List Nat) (t0 : Nat) (c : Cache) (j : Nat),
      j + (ts.length + 1) ≤ ctx.MAX_REQUESTS →
      CountInv req c t0 j →
      List.Chain' (fun a b => a ≤ b ∧ b < a + ctx.WINDOW) (t0 :: ts) →
      ∀ i, i < ts.length + 1 →
        ((runTimes ctx req c (t0 :: ts)).map (fun o => (o.resp, o.setCalls)))[i]? =
          some (Resp.ok (allowedHeaders ctx (j + i + 1)),
                [(rlKey req, j + i + 1, ctx.WINDOW)]) := by
  intro ts
  induction ts with
  | nil =>
    intro t0 c j hle hinv _ i hi
    have hi0 : i = 0 := by simp at hi; omega
    subst hi0
    have hnc := newCount_of_inv hinv
    have hle1 : newCount (Cache.get c t0 (rlKey req)) ≤ ctx.MAX_REQUESTS := by
      omega
    have hstep := middleware_allowed ctx req c t0 hbp hsz hle1
    simp [runTimes, hstep, hnc]
  | cons t1 ts ih =>
    intro t0 c j hle hinv hch i hi
    have hnc := newCount_of_inv hinv
    have hle1 : newCount (Cache.get c t0 (rlKey req)) ≤ ctx.MAX_REQUESTS := by
      simp only [List.length_cons] at hle
      omega
    have hstep := middleware_allowed ctx req c t0 hbp hsz hle1
    have hch1 := List.chain'_cons.mp hch
    rw [runTimes]
    cases i with
    | zero => simp [hstep, hnc]
    | succ n =>
      have hinv1 : CountInv req (http_middleware ctx req c t0).cache t1 (j + 1) := by
        rw [hstep]
        right
        refine ⟨by omega, t0 + ctx.WINDOW, ?_, hch1.1.2⟩
        rw [Cache.find_set_self, hnc]
      have hle2 : (j + 1) + (ts.length + 1) ≤ ctx.MAX_REQUESTS := by
        simp only [List.length_cons] at hle
        omega
      have hn : n < ts.length + 1 := by
        simp only [List.length_cons] at hi
        omega
      have htail := ih t1 (http_middleware ctx req c t0).cache (j + 1) hle2 hinv1 hch1.2 n hn
      have harith : j + 1 + n + 1 = j + (n + 1) + 1 := by omega
      rw [harith] at htail
      simpa using htail

/-- Every middleware call lands in exactly one of the five branches of
`http_middleware`; each disjunct records the guard that selected it. -/
theorem middleware_cases (ctx : Constants) (req : Request) (c : Cache) (now : Nat) :
    (bypassPaths.contains req.path = true ∧
      http_middleware ctx req c now =
        { resp := .bypassOk, handlerRan := true, cache := c,
          monitorCalled := false, getCalls := [], setCalls := [] }) ∨
    (bypassPaths.contains req.path = false ∧ bodySizeCheck ctx req = .tooLarge ∧
      http_middleware ctx req c now =
        { resp := .err413 (entityTooLargeDetail ctx), handlerRan := false,
          cache := c, monitorCalled := false, getCalls := [], setCalls := [] }) ∨
    (bypassPaths.contains req.path = false ∧ bodySizeCheck ctx req = .valueError ∧
      http_middleware ctx req c now =
        { resp := .err500, handlerRan := false, cache := c,
          monitorCalled := false, getCalls := [], setCalls := [] }) ∨
    (bypassPaths.contains req.path = false ∧ bodySizeCheck ctx req = .sizeOk ∧
      newCount (Cache.get c now (rlKey req)) > ctx.MAX_REQUESTS ∧
      http_middleware ctx req c now =
        { resp := .err429 (rateLimitBody ctx) (rateLimitHeaders429 ctx),
          handlerRan := false, cache := c, monitorCalled := false,
          getCalls := [rlKey req], setCalls := [] }) ∨
    (bypassPaths.contains req.path = false ∧ bodySizeCheck ctx req = .sizeOk ∧
      newCount (Cache.get c now (rlKey req)) ≤ ctx.MAX_REQUESTS ∧
      http_middleware ctx req c now =
        { resp := .ok (allowedHeaders ctx (newCount (Cache.get c now (rlKey req)))),
          handlerRan := true,
          cache := Cache.set c now (rlKey req)
            (newCount (Cache.get c now (rlKey req))) ctx.WINDOW,
          monitorCalled := true, getCalls := [rlKey req],
          setCalls := [(rlKey req, newCount (Cache.get c now (rlKey req)),
            ctx.WINDOW)] }) := by
  by_cases hbp : bypassPaths.contains req.path = true
  · exact Or.inl ⟨hbp, middleware_bypass ctx req c now hbp⟩
  · have hbp2 : bypassPaths.contains req.path = false := by
      simpa using hbp
    cases hsz : bodySizeCheck ctx req with
    | tooLarge =>
      exact Or.inr (Or.inl ⟨hbp2, rfl, middleware_tooLarge ctx req c now hbp2 hsz⟩)
    | valueError =>
      exact Or.inr (Or.inr (Or.inl
        ⟨hbp2, rfl, middleware_valueError ctx req c now hbp2 hsz⟩))
    | sizeOk =>
      by_cases hgt : newCount (Cache.get c now (rlKey req)) > ctx.MAX_REQUESTS
      · exact Or.inr (Or.inr (Or.inr (Or.inl
          ⟨hbp2, rfl, hgt, middleware_limited ctx req c now hbp2 hsz hgt⟩)))
      · have hle : newCount (Cache.get c now (rlKey req)) ≤ ctx.MAX_REQUESTS := by
          omega
        exact Or.inr (Or.inr (Or.inr (Or.inr
          ⟨hbp2, rfl, hle, middleware_allowed ctx req c now hbp2 hsz hle⟩)))

/-! ### The claims -/

/-- C1: for every sequence of at most `MAX_REQUESTS` requests from the same
client identifier, processed while the cache returns for the rate-limit key
exactly the last value written for it (here: all calls within the same
second of a positive window, so nothing expires in between), every request
is allowed — the 429 branch is never taken — and the counter value written
back increases by exactly 1 on each call, starting at 1 for the first. -/
theorem c1_sequence_within_limit_allowed (ctx : Constants) (req : Request)
    (now n : Nat)
    (hW : 0 < ctx.WINDOW)
    (hbp : bypassPaths.contains req.path = false)
    (hsz : bodySizeCheck ctx req = .sizeOk)
    (hn : n ≤ ctx.MAX_REQUESTS) :
    ∀ i, i < n →
      ((runTimes ctx req [] (List.replicate n now)).map
          (fun o => (o.resp, o.setCalls)))[i]? =
        some (Resp.ok (allowedHeaders ctx (i + 1)),
              [(rlKey req, i + 1, ctx.WINDOW)]) := by
  intro i hi
  cases n with
  | zero => omega
  | succ m =>
    have hch : List.Chain' (fun a b => a ≤ b ∧ b < a + ctx.WINDOW)
        (now :: List.replicate m now) := by
      rw [← List.replicate_succ]
      exact List.chain'_replicate_of_rel _ ⟨Nat.le_refl now, by omega⟩
    have hinv : CountInv req [] now 0 := Or.inl ⟨rfl, rfl⟩
    have hlen : 0 + ((List.replicate m now).length + 1) ≤ ctx.MAX_REQUESTS := by
      simpa using hn
    have := runTimes_counts ctx req hbp hsz (List.replicate m now) now [] 0
      hlen hinv hch i (by simpa using hi)
    rw [List.replicate_succ]
    simpa using this

theorem c1_witness :
    ((runTimes ⟨100, 5, 60⟩ ⟨"/api", none, [], "203.0.113.7"⟩ []
        (List.replicate 3 7)).map (fun o => (o.resp, o.setCalls)))[2]? =
      some (Resp.ok (allowedHeaders ⟨100, 5, 60⟩ 3),
            [(rlKey ⟨"/api", none, [], "203.0.113.7"⟩, 3, 60)]) :=
  c1_sequence_within_limit_allowed ⟨100, 5, 60⟩ ⟨"/api", none, [], "203.0.113.7"⟩
    7 3 (by decide) (by decide) (by decide) (by decide) 2 (by decide)

/-- C2: when the count read from the cache for the client's rate-limit key
equals `MAX_REQUESTS`, the middleware rejects with 429: a structured body
with fields error, message, retry_after, limit and window, and headers
Retry-After, X-RateLimit-Limit, X-RateLimit-Remaining (the string "0") and
X-RateLimit-Reset; no downstream handler runs, and the monitor is not
touched. -/
theorem c2_reject_when_at_limit (ctx : Constants) (req : Request) (c : Cache)
    (now : Nat)
    (hbp : bypassPaths.contains req.path = false)
    (hsz : bodySizeCheck ctx req = .sizeOk)
    (hcur : Cache.get c now (rlKey req) = some ctx.MAX_REQUESTS) :
    http_middleware ctx req c now =
      { resp := .err429 (rateLimitBody ctx) (rateLimitHeaders429 ctx),
        handlerRan := false, cache := c, monitorCalled := false,
        getCalls := [rlKey req], setCalls := [] } ∧
    (rateLimitBody ctx).error = "Too many requests" ∧
    (rateLimitBody ctx).message = "Rate limit exceeded. Try again in 60 seconds." ∧
    (rateLimitBody ctx).retry_after = natToDec ctx.WINDOW ∧
    (rateLimitBody ctx).limit = ctx.MAX_REQUESTS ∧
    (rateLimitBody ctx).window = ctx.WINDOW ∧
    (rateLimitHeaders429 ctx).retryAfter = natToDec ctx.WINDOW ∧
    (rateLimitHeaders429 ctx).xRateLimitLimit = natToDec ctx.MAX_REQUESTS ∧
    (rateLimitHeaders429 ctx).xRateLimitRemaining = "0" ∧
    (rateLimitHeaders429 ctx).xRateLimitReset = natToDec ctx.WINDOW := by
  have hgt : newCount (Cache.get c now (rlKey req)) > ctx.MAX_REQUESTS := by
    rw [hcur]
    simp only [newCount, ne_eq]
    split <;> omega
  exact ⟨middleware_limited ctx req c now hbp hsz hgt,
    rfl, rfl, rfl, rfl, rfl, rfl, rfl, rfl, rfl⟩

theorem c2_witness :
    http_middleware ⟨100, 5, 60⟩ ⟨"/api", none, [], "c9"⟩
        [("rate_limit:c9", 5, 42)] 7 =
      { resp := .err429 (rateLimitBody ⟨100, 5, 60⟩)
          (rateLimitHeaders429 ⟨100, 5, 60⟩),
        handlerRan := false, cache := [("rate_limit:c9", 5, 42)],
        monitorCalled := false, getCalls := ["rate_limit:c9"],
        setCalls := [] } ∧
    (rateLimitHeaders429 ⟨100, 5, 60⟩).xRateLimitRemaining = "0" :=
  ⟨(c2_reject_when_at_limit ⟨100, 5, 60⟩ ⟨"/api", none, [], "c9"⟩
      [("rate_limit:c9", 5, 42)] 7 (by decide) (by decide) (by decide)).1,
   (c2_reject_when_at_limit ⟨100, 5, 60⟩ ⟨"/api", none, [], "c9"⟩
      [("rate_limit:c9", 5, 42)] 7 (by decide) (by decide) (by decide)).2.2.2.2.2.2.2.2.1⟩

/-- C3 counterexample: a call whose incremented count (2) exceeds
`MAX_REQUESTS` (1) performs no cache write at all — `setCalls` is empty and
the cache is returned unchanged — contradicting the claim that the
middleware writes the incremented counter value back before rejecting. -/
theorem c3_counterexample :
    http_middleware ⟨100, 1, 60⟩ ⟨"/api", none, [], "u"⟩
        [("rate_limit:u", 1, 50)] 0 =
      { resp := .err429 (rateLimitBody ⟨100, 1, 60⟩)
          (rateLimitHeaders429 ⟨100, 1, 60⟩),
        handlerRan := false, cache := [("rate_limit:u", 1, 50)],
        monitorCalled := false, getCalls := ["rate_limit:u"],
        setCalls := [] } := by
  decide

/-- C3 as amended: on a call where the incremented count exceeds
`MAX_REQUESTS`, the middleware rejects with 429 without writing anything to
the cache — the `raise` on line 155 of `src/main.py` runs before the
`cache.set` on line 172, so a rejected request leaves the rate-limit state
unchanged and does not consume a slot. -/
theorem c3_amended_reject_without_write (ctx : Constants) (req : Request)
    (c : Cache) (now : Nat)
    (hbp : bypassPaths.contains req.path = false)
    (hsz : bodySizeCheck ctx req = .sizeOk)
    (hgt : newCount (Cache.get c now (rlKey req)) > ctx.MAX_REQUESTS) :
    http_middleware ctx req c now =
      { resp := .err429 (rateLimitBody ctx) (rateLimitHeaders429 ctx),
        handlerRan := false, cache := c, monitorCalled := false,
        getCalls := [rlKey req], setCalls := [] } :=
  middleware_limited ctx req c now hbp hsz hgt

theorem c3_amended_witness :
    http_middleware ⟨100, 1, 60⟩ ⟨"/w", none, [], "v"⟩
        [("rate_limit:v", 1, 9)] 3 =
      { resp := .err429 (rateLimitBody ⟨100, 1, 60⟩)
          (rateLimitHeaders429 ⟨100, 1, 60⟩),
        handlerRan := false, cache := [("rate_limit:v", 1, 9)],
        monitorCalled := false, getCalls := ["rate_limit:v"],
        setCalls := [] } :=
  c3_amended_reject_without_write ⟨100, 1, 60⟩ ⟨"/w", none, [], "v"⟩
    [("rate_limit:v", 1, 9)] 3 (by decide) (by decide) (by decide)

/-- C4 counterexample: a request rejected by the size check (declared
content-length 101 against a 100-byte limit) gets the 413 response and no
handler runs, but `monitor.increment_request` is NOT called — line 188 of
`src/main.py` runs only after a successful `call_next`, and the
`HTTPException` raised on line 130 skips it — contradicting the claim that
the Performance Monitor is still updated for rejected requests. -/
theorem c4_counterexample :
    (http_middleware ⟨100, 5, 60⟩ ⟨"/api", some "101", [], "u"⟩ [] 0).resp =
        .err413 (entityTooLargeDetail ⟨100, 5, 60⟩) ∧
    (http_middleware ⟨100, 5, 60⟩ ⟨"/api", some "101", [], "u"⟩ [] 0).handlerRan =
        false ∧
    (http_middleware ⟨100, 5, 60⟩ ⟨"/api", some "101", [], "u"⟩ [] 0).monitorCalled =
        false := by
  decide

/-- C4 as amended: for every request rejected at the size check (413) or at
the rate check (429), no downstream handler is invoked and the Performance
Monitor's `increment_request` is NOT called either — both rejections are
raised as exceptions before the `call_next` of line 176, and the monitor
update of line 188 only runs after a successful `call_next`. -/
theorem c4_amended_rejections_bypass_monitor (ctx : Constants) (req : Request)
    (c : Cache) (now : Nat)
    (hrej : (∃ d, (http_middleware ctx req c now).resp = .err413 d) ∨
            (∃ b hh, (http_middleware ctx req c now).resp = .err429 b hh)) :
    (http_middleware ctx req c now).handlerRan = false ∧
    (http_middleware ctx req c now).monitorCalled = false := by
  rcases middleware_cases ctx req c now with
    ⟨_, h⟩ | ⟨_, _, h⟩ | ⟨_, _, h⟩ | ⟨_, _, _, h⟩ | ⟨_, _, _, h⟩ <;>
    rw [h] at hrej ⊢ <;>
    rcases hrej with ⟨d, hd⟩ | ⟨b, hh, hb⟩ <;>
    simp_all

theorem c4_amended_witness :
    (http_middleware ⟨100, 5, 60⟩ ⟨"/api", some "900", [], "w4"⟩ [] 0).handlerRan =
        false ∧
    (http_middleware ⟨100, 5, 60⟩ ⟨"/api", some "900", [], "w4"⟩ [] 0).monitorCalled =
        false :=
  c4_amended_rejections_bypass_monitor ⟨100, 5, 60⟩ ⟨"/api", some "900", [], "w4"⟩
    [] 0 (Or.inl ⟨entityTooLargeDetail ⟨100, 5, 60⟩, by decide⟩)

/-- C5: the body-size check runs before the rate-limit check — a request
whose declared content-length parses to a value above `MAX_BODY_SIZE` is
rejected with 413 and a message naming the byte limit, with no cache read
or write (`getCalls` and `setCalls` empty, cache returned unchanged, so the
rate-limit counter is untouched) and no handler invocation. -/
theorem c5_size_check_before_rate_check (ctx : Constants) (req : Request)
    (c : Cache) (now : Nat) (s : String) (i : Int)
    (hbp : bypassPaths.contains req.path = false)
    (hcl : req.contentLength = some s)
    (hne : s ≠ "")
    (hp : pythonInt s = some i)
    (hgt : i > (ctx.MAX_BODY_SIZE : Int)) :
    http_middleware ctx req c now =
      { resp := .err413 (entityTooLargeDetail ctx), handlerRan := false,
        cache := c, monitorCalled := false, getCalls := [], setCalls := [] } ∧
    entityTooLargeDetail ctx =
      "Request entity too large. Max allowed: " ++ natToDec ctx.MAX_BODY_SIZE ++
        " bytes" := by
  have hsz : bodySizeCheck ctx req = .tooLarge := by
    unfold bodySizeCheck
    rw [hcl]
    simp [hne, hp, hgt]
  exact ⟨middleware_tooLarge ctx req c now hbp hsz, rfl⟩

theorem c5_witness :
    http_middleware ⟨100, 5, 60⟩ ⟨"/api", some "101", [], "w5"⟩
        [("rate_limit:w5", 2, 9)] 1 =
      { resp := .err413 (entityTooLargeDetail ⟨100, 5, 60⟩), handlerRan := false,
        cache := [("rate_limit:w5", 2, 9)], monitorCalled := false,
        getCalls := [], setCalls := [] } ∧
    entityTooLargeDetail ⟨100, 5, 60⟩ =
      "Request entity too large. Max allowed: " ++ natToDec 100 ++ " bytes" :=
  c5_size_check_before_rate_check ⟨100, 5, 60⟩ ⟨"/api", some "101", [], "w5"⟩
    [("rate_limit:w5", 2, 9)] 1 "101" 101 (by decide) rfl (by decide) (by decide)
    (by decide)

/-- C6: on every allowed request the response carries
X-RateLimit-Limit = `MAX_REQUESTS`, X-RateLimit-Remaining =
`max(MAX_REQUESTS - current_count, 0)` and X-RateLimit-Reset = `WINDOW`
(the window length, not the time remaining); and in the end-to-end scenario
with `MAX_REQUESTS = 5`, six same-second requests from one identifier in a
fresh window get remaining values 4,3,2,1,0 and then a 429 whose
Retry-After equals `WINDOW` (= 60). -/
theorem c6_rate_limit_headers (ctx : Constants) (req : Request) (c : Cache)
    (now : Nat) (h : RateHeaders)
    (hok : (http_middleware ctx req c now).resp = .ok h) :
    (h.xRateLimitLimit = natToDec ctx.MAX_REQUESTS ∧
     h.xRateLimitRemaining =
       natToDec (max (ctx.MAX_REQUESTS - newCount (Cache.get c now (rlKey req))) 0) ∧
     h.xRateLimitReset = natToDec ctx.WINDOW) ∧
    ((runTimes ⟨1000000, 5, 60⟩ ⟨"/r", none, [], "client1"⟩ []
        [0, 0, 0, 0, 0, 0]).map
          (fun o => match o.resp with
            | .ok hh => some hh.xRateLimitRemaining
            | _ => none) =
      [some "4", some "3", some "2", some "1", some "0", none] ∧
     (runTimes ⟨1000000, 5, 60⟩ ⟨"/r", none, [], "client1"⟩ []
        [0, 0, 0, 0, 0, 0]).map
          (fun o => match o.resp with
            | .err429 _ hh => some hh.retryAfter
            | _ => none) =
      [none, none, none, none, none, some (natToDec 60)]) := by
  refine ⟨?_, by decide, by decide⟩
  rcases middleware_cases ctx req c now with
    ⟨_, hc⟩ | ⟨_, _, hc⟩ | ⟨_, _, hc⟩ | ⟨_, _, _, hc⟩ | ⟨_, _, _, hc⟩ <;>
    rw [hc] at hok <;> simp at hok
  rw [← hok]
  exact ⟨rfl, rfl, rfl⟩

theorem c6_witness :
    ((allowedHeaders ⟨100, 5, 60⟩ 1).xRateLimitLimit = natToDec 5 ∧
     (allowedHeaders ⟨100, 5, 60⟩ 1).xRateLimitRemaining =
       natToDec (max (5 - newCount (Cache.get [] 0
         (rlKey ⟨"/w6", none, [], "u6"⟩))) 0) ∧
     (allowedHeaders ⟨100, 5, 60⟩ 1).xRateLimitReset = natToDec 60) ∧
    ((runTimes ⟨1000000, 5, 60⟩ ⟨"/r", none, [], "client1"⟩ []
        [0, 0, 0, 0, 0, 0]).map
          (fun o => match o.resp with
            | .ok hh => some hh.xRateLimitRemaining
            | _ => none) =
      [some "4", some "3", some "2", some "1", some "0", none] ∧
     (runTimes ⟨1000000, 5, 60⟩ ⟨"/r", none, [], "client1"⟩ []
        [0, 0, 0, 0, 0, 0]).map
          (fun o => match o.resp with
            | .err429 _ hh => some hh.retryAfter
            | _ => none) =
      [none, none, none, none, none, some (natToDec 60)]) :=
  c6_rate_limit_headers ⟨100, 5, 60⟩ ⟨"/w6", none, [], "u6"⟩ [] 0
    (allowedHeaders ⟨100, 5, 60⟩ 1) (by decide)

/-- C7 counterexample: the special-cased list of line 119 of `src/main.py`
holds three pairwise distinct paths, not two, and each of the three fully
bypasses the pipeline (handler runs; no size check effect, no cache read or
write, no monitor update). -/
theorem c7_counterexample :
    bypassPaths.length = 3 ∧
    ("/docs" : String) ≠ "/redoc" ∧ ("/docs" : String) ≠ "/openapi.json" ∧
    ("/redoc" : String) ≠ "/openapi.json" ∧
    http_middleware ⟨100, 5, 60⟩ ⟨"/docs", none, [], "u"⟩ [] 0 =
      { resp := .bypassOk, handlerRan := true, cache := [],
        monitorCalled := false, getCalls := [], setCalls := [] } ∧
    http_middleware ⟨100, 5, 60⟩ ⟨"/redoc", none, [], "u"⟩ [] 0 =
      { resp := .bypassOk, handlerRan := true, cache := [],
        monitorCalled := false, getCalls := [], setCalls := [] } ∧
    http_middleware ⟨100, 5, 60⟩ ⟨"/openapi.json", none, [], "u"⟩ [] 0 =
      { resp := .bypassOk, handlerRan := true, cache := [],
        monitorCalled := false, getCalls := [], setCalls := [] } := by
  decide

/-- C7 as amended: exactly three special-cased documentation/introspection
paths — "/docs", "/redoc" and "/openapi.json" — bypass the entire pipeline
(no size check, no cache access, no header annotation, no monitor update;
straight to the handler); a request for any other path enters the
pipeline. -/
theorem c7_amended_three_bypass_paths (ctx : Constants) (req : Request)
    (c : Cache) (now : Nat) :
    http_middleware ctx req c now =
      { resp := .bypassOk, handlerRan := true, cache := c,
        monitorCalled := false, getCalls := [], setCalls := [] } ↔
    (req.path = "/docs" ∨ req.path = "/redoc" ∨ req.path = "/openapi.json") := by
  constructor
  · intro h
    rcases middleware_cases ctx req c now with
      ⟨hbp, _⟩ | ⟨_, _, hc⟩ | ⟨_, _, hc⟩ | ⟨_, _, _, hc⟩ | ⟨_, _, _, hc⟩
    · simpa [bypassPaths] using hbp
    all_goals rw [h] at hc; simp at hc
  · intro h
    apply middleware_bypass
    simp [bypassPaths]
    tauto

/-- C8 counterexample: with `MAX_REQUESTS = 1` and `WINDOW = 10`, a client
calling at seconds 0, 5 and 11 — every gap strictly below the window — gets
a fresh count of 1 written on the third call: the second call was rejected
and a rejected call performs no `cache.set`, so the entry written at second
0 expired at second 10 and the window restarted, contradicting the claim
that such a client never gets a fresh count. -/
theorem c8_counterexample :
    (5 - 0 < 10 ∧ 11 - 5 < 10) ∧
    (runTimes ⟨100, 1, 10⟩ ⟨"/api", none, [], "u"⟩ [] [0, 5, 11]).map
        (fun o => (o.resp, o.setCalls)) =
      [(.ok (allowedHeaders ⟨100, 1, 10⟩ 1), [("rate_limit:u", 1, 10)]),
       (.err429 (rateLimitBody ⟨100, 1, 10⟩) (rateLimitHeaders429 ⟨100, 1, 10⟩),
        []),
       (.ok (allowedHeaders ⟨100, 1, 10⟩ 1), [("rate_limit:u", 1, 10)])] := by
  decide

/-- C8 as amended: on every allowed request the middleware calls
`cache.set(key, new_value, WINDOW)`, resetting the key's expiration
deadline to `WINDOW` seconds from the current call, so the TTL is refreshed
on every increment and a client whose requests keep being ALLOWED at gaps
below `WINDOW` seconds never gets a fresh count — the counter keeps
climbing 1, 2, 3, ... rather than restarting (sliding-refresh, not a fixed
window anchored at the first request).  Rejected requests, however, write
nothing, so once the limit is hit the deadline is no longer refreshed and
the window can expire `WINDOW` seconds after the last allowed write even
while the client keeps sending. -/
theorem c8_amended_ttl_refresh_on_every_increment :
    (∀ (ctx : Constants) (req : Request) (c : Cache) (now : Nat)
        (h : RateHeaders),
      (http_middleware ctx req c now).resp = .ok h →
      (http_middleware ctx req c now).setCalls =
        [(rlKey req, newCount (Cache.get c now (rlKey req)), ctx.WINDOW)] ∧
      Cache.find ((http_middleware ctx req c now).cache) (rlKey req) =
        some (newCount (Cache.get c now (rlKey req)), now + ctx.WINDOW)) ∧
    (∀ (ctx : Constants) (req : Request),
      bypassPaths.contains req.path = false →
      bodySizeCheck ctx req = .sizeOk →
      ∀ (t0 : Nat) (ts : List Nat),
        List.Chain' (fun a b => a ≤ b ∧ b < a + ctx.WINDOW) (t0 :: ts) →
        ts.length + 1 ≤ ctx.MAX_REQUESTS →
        ∀ i, i < ts.length + 1 →
          ((runTimes ctx req [] (t0 :: ts)).map
              (fun o => (o.resp, o.setCalls)))[i]? =
            some (Resp.ok (allowedHeaders ctx (i + 1)),
                  [(rlKey req, i + 1, ctx.WINDOW)])) := by
  constructor
  · intro ctx req c now h hok
    rcases middleware_cases ctx req c now with
      ⟨_, hc⟩ | ⟨_, _, hc⟩ | ⟨_, _, hc⟩ | ⟨_, _, _, hc⟩ | ⟨_, _, _, hc⟩ <;>
      rw [hc] at hok ⊢ <;> simp [Cache.find_set_self] at hok ⊢
  · intro ctx req hbp hsz t0 ts hch hlen i hi
    have hinv : CountInv req [] t0 0 := Or.inl ⟨rfl, rfl⟩
    have hlen0 : 0 + (ts.length + 1) ≤ ctx.MAX_REQUESTS := by omega
    simpa using runTimes_counts ctx req hbp hsz ts t0 [] 0 hlen0 hinv hch i hi

theorem c8_amended_witness :
    ((http_middleware ⟨100, 5, 60⟩ ⟨"/w8", none, [], "u8"⟩ [] 5).setCalls =
      [(rlKey ⟨"/w8", none, [], "u8"⟩,
        newCount (Cache.get [] 5 (rlKey ⟨"/w8", none, [], "u8"⟩)), 60)] ∧
     Cache.find ((http_middleware ⟨100, 5, 60⟩ ⟨"/w8", none, [], "u8"⟩ [] 5).cache)
        (rlKey ⟨"/w8", none, [], "u8"⟩) =
      some (newCount (Cache.get [] 5 (rlKey ⟨"/w8", none, [], "u8"⟩)), 5 + 60)) ∧
    ((runTimes ⟨100, 5, 60⟩ ⟨"/w8", none, [], "u8"⟩ [] [5, 30]).map
        (fun o => (o.resp, o.setCalls)))[1]? =
      some (Resp.ok (allowedHeaders ⟨100, 5, 60⟩ 2),
            [(rlKey ⟨"/w8", none, [], "u8"⟩, 2, 60)]) :=
  ⟨c8_amended_ttl_refresh_on_every_increment.1 ⟨100, 5, 60⟩
      ⟨"/w8", none, [], "u8"⟩ [] 5 (allowedHeaders ⟨100, 5, 60⟩ 1) (by decide),
   c8_amended_ttl_refresh_on_every_increment.2 ⟨100, 5, 60⟩
      ⟨"/w8", none, [], "u8"⟩ (by decide) (by decide) 5 [30]
      (by simp [List.chain'_cons]) (by decide) 1 (by decide)⟩

/-- C9: for every configuration, the 429 body's message field is the fixed
string naming 60 seconds — it does not depend on `Constants.WINDOW` — while
the retry_after field and the Retry-After header of the same response equal
the decimal rendering of `Constants.WINDOW`; so whenever `WINDOW ≠ 60` the
message does not name the window the headers announce. -/
theorem c9_message_hardcodes_60 (ctx : Constants) :
    (∀ (req : Request) (c : Cache) (now : Nat) (b : Body429) (hh : Headers429),
      (http_middleware ctx req c now).resp = .err429 b hh →
      b = rateLimitBody ctx ∧ hh = rateLimitHeaders429 ctx) ∧
    (rateLimitBody ctx).message = rateMsg 60 ∧
    (∀ ctx2 : Constants, (rateLimitBody ctx2).message = (rateLimitBody ctx).message) ∧
    (rateLimitBody ctx).retry_after = natToDec ctx.WINDOW ∧
    (rateLimitHeaders429 ctx).retryAfter = natToDec ctx.WINDOW ∧
    (ctx.WINDOW ≠ 60 → (rateLimitBody ctx).message ≠ rateMsg ctx.WINDOW) := by
  have hmsg : (rateLimitBody ctx).message = rateMsg 60 := rfl
  refine ⟨?_, hmsg, fun _ => rfl, rfl, rfl, ?_⟩
  · intro req c now b hh hok
    rcases middleware_cases ctx req c now with
      ⟨_, hc⟩ | ⟨_, _, hc⟩ | ⟨_, _, hc⟩ | ⟨_, _, _, hc⟩ | ⟨_, _, _, hc⟩ <;>
      rw [hc] at hok <;> simp at hok
    exact ⟨hok.1.symm, hok.2.symm⟩
  · intro hne heq
    exact hne (rateMsg_inj (hmsg.symm.trans heq)).symm

theorem c9_witness :
    (rateLimitBody ⟨100, 5, 90⟩ = rateLimitBody ⟨100, 5, 90⟩ ∧
     rateLimitHeaders429 ⟨100, 5, 90⟩ = rateLimitHeaders429 ⟨100, 5, 90⟩) ∧
    (rateLimitBody ⟨100, 5, 90⟩).message ≠ rateMsg 90 :=
  ⟨(c9_message_hardcodes_60 ⟨100, 5, 90⟩).1 ⟨"/api", none, [], "z"⟩
      [("rate_limit:z", 5, 50)] 0 (rateLimitBody ⟨100, 5, 90⟩)
      (rateLimitHeaders429 ⟨100, 5, 90⟩) (by decide),
   (c9_message_hardcodes_60 ⟨100, 5, 90⟩).2.2.2.2.2 (by decide)⟩

/-- C10: the size guard parses the content-length header with an unguarded
`int()`; a request carrying a non-empty content-length value that is not a
valid decimal integer makes the middleware raise `ValueError`, which
surfaces as a 500 through `global_exception_handler` instead of a 413 or
400, with no cache access and no downstream handler invocation. -/
theorem c10_invalid_content_length_500 (ctx : Constants) (req : Request)
    (c : Cache) (now : Nat) (s : String)
    (hbp : bypassPaths.contains req.path = false)
    (hcl : req.contentLength = some s)
    (hne : s ≠ "")
    (hp : pythonInt s = none) :
    http_middleware ctx req c now =
      { resp := .err500, handlerRan := false, cache := c,
        monitorCalled := false, getCalls := [], setCalls := [] } := by
  have hsz : bodySizeCheck ctx req = .valueError := by
    unfold bodySizeCheck
    rw [hcl]
    simp [hne, hp]
  exact middleware_valueError ctx req c now hbp hsz

theorem c10_witness :
    http_middleware ⟨100, 5, 60⟩ ⟨"/api", some "12abc", [], "w10"⟩
        [("rate_limit:w10", 1, 9)] 0 =
      { resp := .err500, handlerRan := false,
        cache := [("rate_limit:w10", 1, 9)], monitorCalled := false,
        getCalls := [], setCalls := [] } :=
  c10_invalid_content_length_500 ⟨100, 5, 60⟩ ⟨"/api", some "12abc", [], "w10"⟩
    [("rate_limit:w10", 1, 9)] 0 "12abc" (by decide) rfl (by decide) (by decide)

end Haar
